import Mathlib

set_option maxRecDepth 20000

/-!
Verification of `update-and-sync-ios.py` from jarlesteinnes-bot/bntf-union-documents.

The script scans a fixed list of category directories for `*.pdf` files,
builds a JSON catalog (`pdf-index.json`) with per-document metadata and
aggregate statistics, commits and pushes the working tree, and finally
emits a (simulated) notification payload for a downstream iOS app.

This file shallowly embeds the script:
  * pure computations (MD5 digests, UTF-8 encoding, URL quoting, path stems,
    catalog assembly) are translated directly into Lean functions;
  * the filesystem is an explicit value (`FS`): for each category directory
    either absent (`Path.exists()/is_dir()` false) or a list of entries, and
    per file either successfully read metadata or `none` (the case where
    `os.stat`/`open`/`read` raises, caught in `get_file_info`);
  * the git subprocess calls are an explicit environment (`GitEnv`) recording
    each call's return code / captured stdout, and `git_commit_and_push`
    returns both its outcome and the trace of subprocess steps it performed;
  * `main` becomes `main_run`, a function from the environment to the run's
    observable outcome (exit code, catalog, git trace, notification).

Machine integers are modelled as `Nat` reduced mod 2^32 / 2^64 where the
Python library arithmetic (MD5) wraps.
-/

/-! ### 32-bit word helpers (for MD5) -/

/-- Truncate to a 32-bit word. -/
def u32 (n : Nat) : Nat := n % 4294967296

/-- Bitwise complement on 32-bit words (input assumed < 2^32). -/
def bnot32 (x : Nat) : Nat := 4294967295 - x

/-- Left-rotate a 32-bit word by `s` (for `0 ≤ s ≤ 32`). -/
def rotl32 (x s : Nat) : Nat :=
  u32 (Nat.lor (u32 (Nat.shiftLeft x s)) (Nat.shiftRight x (32 - s)))

/-- `k` little-endian bytes of `x` (truncating above `256^k`). -/
def toLEBytes : Nat → Nat → List Nat
  | 0, _ => []
  | k + 1, x => (x % 256) :: toLEBytes k (x / 256)

/-- Group a byte list into 32-bit little-endian words (trailing partial
group dropped; MD5 input is always padded to a multiple of 64 bytes). -/
def bytesToWordsLE : List Nat → List Nat
  | b0 :: b1 :: b2 :: b3 :: rest =>
      (b0 + 256 * b1 + 65536 * b2 + 16777216 * b3) :: bytesToWordsLE rest
  | _ => []

/-- Group a word list into 16-word MD5 blocks (trailing partial block
dropped; padded input is always a multiple of 16 words). -/
def wordsToBlocks : List Nat → List (List Nat)
  | w0 :: w1 :: w2 :: w3 :: w4 :: w5 :: w6 :: w7 ::
    w8 :: w9 :: w10 :: w11 :: w12 :: w13 :: w14 :: w15 :: rest =>
      [w0, w1, w2, w3, w4, w5, w6, w7, w8, w9, w10, w11, w12, w13, w14, w15]
        :: wordsToBlocks rest
  | _ => []

/-! ### MD5 (RFC 1321), as used by Python's `hashlib.md5` -/

/-- The 64 MD5 sine-derived constants `K[i] = ⌊|sin(i+1)| · 2^32⌋`. -/
def md5K : List Nat :=
  [3614090360, 3905402710, 606105819, 3250441966, 4118548399, 1200080426, 2821735955, 4249261313,
  1770035416, 2336552879, 4294925233, 2304563134, 1804603682, 4254626195, 2792965006, 1236535329,
  4129170786, 3225465664, 643717713, 3921069994, 3593408605, 38016083, 3634488961, 3889429448,
  568446438, 3275163606, 4107603335, 1163531501, 2850285829, 4243563512, 1735328473, 2368359562,
  4294588738, 2272392833, 1839030562, 4259657740, 2763975236, 1272893353, 4139469664, 3200236656,
  681279174, 3936430074, 3572445317, 76029189, 3654602809, 3873151461, 530742520, 3299628645,
  4096336452, 1126891415, 2878612391, 4237533241, 1700485571, 2399980690, 4293915773, 2240044497,
  1873313359, 4264355552, 2734768916, 1309151649, 4149444226, 3174756917, 718787259, 3951481745]

/-- The 64 MD5 per-round left-rotation amounts. -/
def md5S : List Nat :=
  [7, 12, 17, 22, 7, 12, 17, 22, 7, 12, 17, 22, 7, 12, 17, 22,
   5, 9, 14, 20, 5, 9, 14, 20, 5, 9, 14, 20, 5, 9, 14, 20,
   4, 11, 16, 23, 4, 11, 16, 23, 4, 11, 16, 23, 4, 11, 16, 23,
   6, 10, 15, 21, 6, 10, 15, 21, 6, 10, 15, 21, 6, 10, 15, 21]

/-- One MD5 round `i` on state `(A, B, C, D)` with message block `M`. -/
def md5Step (M : List Nat) (st : Nat × Nat × Nat × Nat) (i : Nat) :
    Nat × Nat × Nat × Nat :=
  let A := st.1
  let B := st.2.1
  let C := st.2.2.1
  let D := st.2.2.2
  let F :=
    if i < 16 then Nat.lor (Nat.land B C) (Nat.land (bnot32 B) D)
    else if i < 32 then Nat.lor (Nat.land D B) (Nat.land (bnot32 D) C)
    else if i < 48 then Nat.xor (Nat.xor B C) D
    else Nat.xor C (Nat.lor B (bnot32 D))
  let g :=
    if i < 16 then i
    else if i < 32 then (5 * i + 1) % 16
    else if i < 48 then (3 * i + 5) % 16
    else (7 * i) % 16
  let tmp := u32 (F + A + md5K.getD i 0 + M.getD g 0)
  (D, u32 (B + rotl32 tmp (md5S.getD i 0)), B, C)

/-- Process one 16-word block, updating the 4-word chaining state. -/
def md5Block (st : Nat × Nat × Nat × Nat) (M : List Nat) :
    Nat × Nat × Nat × Nat :=
  let r := (List.range 64).foldl (md5Step M) st
  (u32 (st.1 + r.1), u32 (st.2.1 + r.2.1), u32 (st.2.2.1 + r.2.2.1),
   u32 (st.2.2.2 + r.2.2.2))

/-- MD5 padding: append `0x80`, zero bytes to 56 mod 64, then the message
bit length as 8 little-endian bytes. -/
def md5Pad (msg : List Nat) : List Nat :=
  msg ++ 128 :: List.replicate ((119 - msg.length % 64) % 64) 0
      ++ toLEBytes 8 (8 * msg.length)

/-- The 16-byte MD5 digest of a byte string. -/
def md5Digest (msg : List Nat) : List Nat :=
  let blocks := wordsToBlocks (bytesToWordsLE (md5Pad msg))
  let st := blocks.foldl md5Block (1732584193, 4023233417, 2562383102, 271733878)
  toLEBytes 4 st.1 ++ toLEBytes 4 st.2.1 ++ toLEBytes 4 st.2.2.1
    ++ toLEBytes 4 st.2.2.2

/-- Lowercase hex digit for `n < 16`. -/
def hexChar (n : Nat) : Char :=
  "0123456789abcdef".data.getD n '0'

/-- Two lowercase hex digits of a byte. -/
def hexBytePair (b : Nat) : List Char := [hexChar (b / 16), hexChar (b % 16)]

/-- The characters of `hashlib.md5(msg).hexdigest()`: 32 lowercase hex
digits. -/
def md5hexChars (msg : List Nat) : List Char :=
  (md5Digest msg).flatMap hexBytePair

/-- `hashlib.md5(msg).hexdigest()` as a string. -/
def md5hex (msg : List Nat) : String := String.mk (md5hexChars msg)

/-! ### UTF-8 encoding (Python `str.encode()`) -/

/-- UTF-8 bytes of one code point. -/
def utf8EncodeChar (c : Char) : List Nat :=
  let n := c.toNat
  if n < 128 then [n]
  else if n < 2048 then [192 + n / 64, 128 + n % 64]
  else if n < 65536 then [224 + n / 4096, 128 + n / 64 % 64, 128 + n % 64]
  else [240 + n / 262144, 128 + n / 4096 % 64, 128 + n / 64 % 64, 128 + n % 64]

/-- UTF-8 bytes of a string (`str.encode()` with the default encoding). -/
def utf8Encode (s : String) : List Nat := s.data.flatMap utf8EncodeChar

/-! ### URL quoting (`urllib.parse.quote`, default `safe='/'`) -/

/-- Characters `urllib.parse.quote` leaves unquoted: ASCII alphanumerics,
`_.-~`, and the default safe character `/`. -/
def quoteSafe (c : Char) : Bool :=
  c.isAlpha || c.isDigit || c = '_' || c = '.' || c = '-' || c = '~' || c = '/'

/-- Percent-encode one character as `%XX` per UTF-8 byte (uppercase hex, as
`urllib.parse.quote` produces). -/
def quoteChar (c : Char) : List Char :=
  if quoteSafe c then [c]
  else (utf8EncodeChar c).flatMap fun b =>
    ['%', (hexChar (b / 16)).toUpper, (hexChar (b % 16)).toUpper]

/-- `urllib.parse.quote(s)`. -/
def urlQuote (s : String) : String := String.mk (s.data.flatMap quoteChar)

/-! ### `pathlib` filename helpers -/

/-- Index of the last `'.'` in a character list, if any. -/
def lastDotIdx (cs : List Char) : Option Nat :=
  ((List.range cs.length).filter fun i => cs.getD i ' ' = '.').getLast?

/-- `pathlib.PurePath(name).stem`: the filename with its suffix removed.
The suffix is the part from the last dot on, provided that dot is neither
the first nor the last character of the name. -/
def pathStem (name : String) : String :=
  match lastDotIdx name.data with
  | some i =>
      if 0 < i ∧ i < name.data.length - 1 then String.mk (name.data.take i)
      else name
  | none => name

/-! ### Configuration constants of the script -/

def GITHUB_USERNAME : String := "jarlesteinnes-bot"

def REPO_NAME : String := "bntf-union-documents"

def BASE_URL : String :=
  "https://raw.githubusercontent.com/" ++ GITHUB_USERNAME ++ "/"
    ++ REPO_NAME ++ "/main"

/-- The fixed category list, in configuration order. -/
def CATEGORIES : List String :=
  ["protokoller", "vedtekter", "særavtale_bntf", "hovedavtalen",
   "overenskomsten", "other"]

def IOS_UPDATE_EVENT_TYPE : String := "document_update"

def CATEGORY_DISPLAY_NAMES : List (String × String) :=
  [("protokoller", "Protokoller"), ("vedtekter", "Vedtekter"),
   ("særavtale_bntf", "Særavtale BNTF"), ("hovedavtalen", "Hovedavtalen YS/NHO"),
   ("overenskomsten", "Overenskomsten"), ("other", "Other")]

def CATEGORY_ICONS : List (String × String) :=
  [("protokoller", "📋"), ("vedtekter", "📜"), ("særavtale_bntf", "🚁"),
   ("hovedavtalen", "🏢"), ("overenskomsten", "📄"), ("other", "📁")]

/-! ### Filesystem model

A category directory either is absent (`Path.exists() and Path.is_dir()`
false) or holds a list of entries. For each entry, `meta` is the data the
metadata read (`os.stat` + `open(...).read()`) would return, or `none` when
that read raises — the exception branch of `get_file_info`. -/

/-- Result of a successful per-file metadata read: byte size, the already
ISO-formatted UTC modification timestamp, and the file's content bytes. -/
structure FileMeta where
  size : Nat
  modifiedIso : String
  content : List Nat
deriving DecidableEq, Repr

/-- One directory entry: its filename, and its readable metadata or `none`
when reading the metadata raises. -/
structure FileEntry where
  name : String
  meta : Option FileMeta
deriving DecidableEq, Repr

/-- The working directory: an association from category directory name to
its entries; a missing key models `exists()/is_dir()` returning false. -/
structure FS where
  dirs : List (String × List FileEntry)
deriving DecidableEq, Repr

/-- Directory lookup (`Path(category).exists() and .is_dir()`). -/
def FS.lookupDir (fs : FS) (category : String) : Option (List FileEntry) :=
  fs.dirs.lookup category

/-! ### `get_file_info` -/

/-- The dictionary returned by `get_file_info`. -/
structure FileInfo where
  size : Nat
  modified : String
  hash : String
deriving DecidableEq, Repr

/-- `get_file_info`: on success, size from `os.stat`, ISO-formatted UTC
mtime, and the MD5 hex digest of the file bytes; any exception is caught
and yields `{'size': 0, 'modified': '', 'hash': ''}`. -/
def get_file_info (e : FileEntry) : FileInfo :=
  match e.meta with
  | some m => { size := m.size, modified := m.modifiedIso, hash := md5hex m.content }
  | none => { size := 0, modified := "", hash := "" }

/-! ### Globbing and sorting (`category_path.glob('*.pdf')`, `sorted`) -/

/-- Whether a directory entry name matches the glob pattern `*.pdf` as
`pathlib.Path.glob` interprets it: the name ends with `.pdf`. Unlike the
`glob` module, `Path.glob` does not hide dot-leading names: `.hidden.pdf`
and even `.pdf` itself are matched. -/
def matchesPdfGlob (name : String) : Bool :=
  ".pdf".data.isSuffixOf name.data

/-- Python string comparison: strict lexicographic order on code points,
a proper prefix ordering below its extensions. -/
def listCharLt : List Char → List Char → Bool
  | [], [] => false
  | [], _ :: _ => true
  | _ :: _, [] => false
  | a :: as, b :: bs => decide (a < b) || (a == b && listCharLt as bs)

/-- Python string/`Path` comparison restricted to same-directory entries:
code-point lexicographic `≤` on the filename. -/
def strLe (a b : String) : Bool := !(listCharLt b.data a.data)

/-- Insert into a `le`-sorted list, keeping it sorted (stable). -/
def insertSorted (le : α → α → Bool) (x : α) : List α → List α
  | [] => [x]
  | y :: ys => if le x y then x :: y :: ys else y :: insertSorted le x ys

/-- Insertion sort, modelling Python's `sorted`. -/
def sortList (le : α → α → Bool) (l : List α) : List α :=
  l.foldr (insertSorted le) []

/-- Entry ordering used by `sorted(pdf_files)`: `Path` objects in the same
directory compare by filename, code point by code point. -/
def entryLe (a b : FileEntry) : Bool := strLe a.name b.name

/-! ### Catalog data model (the `index` dictionary) -/

/-- One document record of the catalog. -/
structure Document where
  id : String
  name : String
  filename : String
  url : String
  category : String
  categoryDisplayName : String
  icon : String
  size : Nat
  modified : String
  hash : String
deriving DecidableEq, Repr

/-- The catalog's `statistics` object. -/
structure Statistics where
  totalDocuments : Nat
  totalSize : Nat
  categoryCounts : List (String × Nat)
deriving DecidableEq, Repr

/-- The catalog (`index`) object. -/
structure Catalog where
  lastUpdated : String
  baseUrl : String
  version : String
  categories : List (String × String)
  categoryIcons : List (String × String)
  documents : List (String × List Document)
  statistics : Statistics
deriving DecidableEq, Repr

/-- `hashlib.md5(f'{category}_{filename}'.encode()).hexdigest()[:12]`. -/
def file_id (category filename : String) : String :=
  String.mk ((md5hexChars (utf8Encode (category ++ "_" ++ filename))).take 12)

/-- The document dictionary built for one file in `generate_pdf_index`. -/
def mkDocument (category filename : String) (file_info : FileInfo) : Document :=
  { id := file_id category filename,
    name := pathStem filename,
    filename := filename,
    url := BASE_URL ++ "/" ++ category ++ "/" ++ urlQuote filename,
    category := category,
    categoryDisplayName := (CATEGORY_DISPLAY_NAMES.lookup category).getD category,
    icon := (CATEGORY_ICONS.lookup category).getD "📄",
    size := file_info.size,
    modified := file_info.modified,
    hash := file_info.hash }

/-- Accumulator of the inner (per-file) loop of `generate_pdf_index`,
together with the running totals of the outer loop. -/
structure CatAcc where
  documents : List Document
  category_size : Nat
  total_documents : Nat
  total_size : Nat
deriving DecidableEq, Repr

/-- The body of the inner loop: read the file info, build the document,
append it, and bump `category_size`, `total_documents`, `total_size`. -/
def processFile (category : String) (acc : CatAcc) (e : FileEntry) : CatAcc :=
  let file_info := get_file_info e
  let document := mkDocument category e.name file_info
  { documents := acc.documents ++ [document],
    category_size := acc.category_size + file_info.size,
    total_documents := acc.total_documents + 1,
    total_size := acc.total_size + file_info.size }

/-- One iteration of the outer loop of `generate_pdf_index` for a single
category: if the directory exists, glob `*.pdf`, sort, and fold the inner
loop; otherwise leave `documents` empty and the totals unchanged. Returns
the category's document list and the updated running totals. -/
def scanCategory (fs : FS) (total_documents total_size : Nat)
    (category : String) : List Document × Nat × Nat :=
  match fs.lookupDir category with
  | none => ([], total_documents, total_size)
  | some entries =>
      let pdf_files := sortList entryLe (entries.filter fun e => matchesPdfGlob e.name)
      let acc := pdf_files.foldl (processFile category)
        ⟨[], 0, total_documents, total_size⟩
      (acc.documents, acc.total_documents, acc.total_size)

/-- Accumulator of the outer loop over `CATEGORIES`. -/
structure GenAcc where
  documents : List (String × List Document)
  categoryCounts : List (String × Nat)
  total_documents : Nat
  total_size : Nat
deriving DecidableEq, Repr

/-- The body of the outer loop of `generate_pdf_index`: scan one category,
record `index['documents'][category]` and
`index['statistics']['categoryCounts'][category] = len(documents)`, and
carry the updated running totals. -/
def genStep (fs : FS) (a : GenAcc) (category : String) : GenAcc :=
  let r := scanCategory fs a.total_documents a.total_size category
  { documents := a.documents ++ [(category, r.1)],
    categoryCounts := a.categoryCounts ++ [(category, r.1.length)],
    total_documents := r.2.1,
    total_size := r.2.2 }

/-- `generate_pdf_index`, as a function of the filesystem and the current
UTC timestamp string (`datetime.now(timezone.utc).strftime(...)`). The
JSON serialization to `pdf-index.json` is I/O and not part of the returned
value; the function returns the `index` object. -/
def generate_pdf_index (fs : FS) (nowIso : String) : Catalog :=
  let acc := CATEGORIES.foldl (genStep fs) ⟨[], [], 0, 0⟩
  { lastUpdated := nowIso,
    baseUrl := BASE_URL,
    version := "2.0",
    categories := CATEGORY_DISPLAY_NAMES,
    categoryIcons := CATEGORY_ICONS,
    documents := acc.documents,
    statistics :=
      { totalDocuments := acc.total_documents,
        totalSize := acc.total_size,
        categoryCounts := acc.categoryCounts } }

/-! ### `git_commit_and_push`

The four `subprocess.run` invocations are modelled by an environment
recording each call's return code and, for `git status --porcelain`, its
captured stdout (the code never inspects the status return code, only its
stdout). The function returns its outcome together with the trace of git
subprocess steps actually performed. -/

/-- Outcomes of the subprocess calls made by `git_commit_and_push`. -/
structure GitEnv where
  add_returncode : Nat
  status_stdout : String
  commit_returncode : Nat
  push_returncode : Nat
deriving DecidableEq, Repr

/-- Which git subprocess was invoked. -/
inductive GitStep where
  | add
  | status
  | commit
  | push
deriving DecidableEq, Repr

/-- How `git_commit_and_push` ended. The Python function returns `True`
only for `pushed`; both `noChanges` ("No changes to commit") and `failed`
(a raised exception caught at the bottom) return `False`. -/
inductive PublishResult where
  | pushed
  | noChanges
  | failed
deriving DecidableEq, Repr

/-- The boolean the caller (`main`) sees. -/
def publishOk : PublishResult → Bool
  | .pushed => true
  | .noChanges => false
  | .failed => false

/-- Python's `str.strip()`: whitespace removed from both ends. -/
def pyStrip (s : String) : String :=
  String.mk (((s.data.dropWhile Char.isWhitespace).reverse.dropWhile
    Char.isWhitespace).reverse)

/-- `git_commit_and_push`: stage all, short-circuit when
`git status --porcelain` prints nothing (after `strip()`), else commit and
push; a non-zero return code from add/commit/push raises, is caught, and
yields `False`. -/
def git_commit_and_push (g : GitEnv) : PublishResult × List GitStep :=
  if g.add_returncode ≠ 0 then (.failed, [.add])
  else if pyStrip g.status_stdout = "" then (.noChanges, [.add, .status])
  else if g.commit_returncode ≠ 0 then (.failed, [.add, .status, .commit])
  else if g.push_returncode ≠ 0 then (.failed, [.add, .status, .commit, .push])
  else (.pushed, [.add, .status, .commit, .push])

/-! ### `notify_ios_app` -/

/-- The `client_payload` object of the notification. -/
structure ClientPayload where
  timestamp : String
  totalDocuments : Nat
  categoryCounts : List (String × Nat)
  updatedCategories : List String
  specialUpdate : String
  indexUrl : String
  version : String
deriving DecidableEq, Repr

/-- The notification payload dispatched (in the script: logged) to the
iOS app. -/
structure NotificationPayload where
  event_type : String
  client_payload : ClientPayload
deriving DecidableEq, Repr

/-- The payload `notify_ios_app` builds from the catalog (`index_data`)
and the current UTC timestamp. `index_data.get('version', '2.0')` is the
catalog's `version` field, which is always present. -/
def notify_ios_app (index_data : Catalog) (nowIso : String) :
    NotificationPayload :=
  { event_type := IOS_UPDATE_EVENT_TYPE,
    client_payload :=
      { timestamp := nowIso,
        totalDocuments := index_data.statistics.totalDocuments,
        categoryCounts := index_data.statistics.categoryCounts,
        updatedCategories := CATEGORIES,
        specialUpdate := "særavtale_bntf_renamed",
        indexUrl := BASE_URL ++ "/pdf-index.json",
        version := index_data.version } }

/-! ### `main` -/

/-- The environment a run of `main` observes: whether `.git` exists in the
working directory, the filesystem of category directories, whether
`generate_pdf_index` raises (e.g. writing `pdf-index.json` fails), and the
outcomes of the git subprocess calls. -/
structure Env where
  has_git_dir : Bool
  fs : FS
  gen_raises : Bool
  git : GitEnv
deriving DecidableEq, Repr

/-- The observable outcome of a run of `main`: the process exit code, the
catalog built (when generation completed), the git subprocess trace, the
dispatched notification payload (when any), and whether the webhook config
step ran. -/
structure RunResult where
  exit_code : Nat
  index_data : Option Catalog
  git_steps : List GitStep
  notification : Option NotificationPayload
  webhook_written : Bool
deriving DecidableEq, Repr

/-- `main`: check `.git` exists (else `sys.exit(1)`), generate the index
(a raised exception means `sys.exit(1)`), commit and push; on `True`,
notify the iOS app and write the webhook config, then finish (exit 0); on
`False`, `sys.exit(1)`. `genNow` and `notifyNow` are the two wall-clock
readings taken inside `generate_pdf_index` and `notify_ios_app`. -/
def main_run (e : Env) (genNow notifyNow : String) : RunResult :=
  if !e.has_git_dir then
    { exit_code := 1, index_data := none, git_steps := [],
      notification := none, webhook_written := false }
  else if e.gen_raises then
    { exit_code := 1, index_data := none, git_steps := [],
      notification := none, webhook_written := false }
  else
    let index_data := generate_pdf_index e.fs genNow
    let r := git_commit_and_push e.git
    if publishOk r.1 then
      { exit_code := 0, index_data := some index_data, git_steps := r.2,
        notification := some (notify_ios_app index_data notifyNow),
        webhook_written := true }
    else
      { exit_code := 1, index_data := some index_data, git_steps := r.2,
        notification := none, webhook_written := false }

/-- The document list `generate_pdf_index` builds for one category:
glob `*.pdf`, sort by filename, and build one record per file. -/
def catDocs (fs : FS) (category : String) : List Document :=
  match fs.lookupDir category with
  | none => []
  | some entries =>
      (sortList entryLe (entries.filter fun e => matchesPdfGlob e.name)).map
        fun e => mkDocument category e.name (get_file_info e)

/-! ### Concrete fixtures used by the witnesses -/

/-- Sample `vedtekter` directory entries: two readable PDFs, one PDF whose
metadata read raises, a non-PDF file (not matched by `glob('*.pdf')`), and
a hidden PDF (matched: `Path.glob` does not hide dot-leading names). -/
def vedtekterEntries : List FileEntry :=
  [{ name := "c.pdf",
     meta := some { size := 2500, modifiedIso := "2024-02-02T00:00:00+00:00",
                    content := [37, 80, 68, 70, 13] } },
   { name := "a.pdf",
     meta := some { size := 1000, modifiedIso := "2024-01-01T00:00:00+00:00",
                    content := [37, 80, 68, 70] } },
   { name := "b.pdf", meta := none },
   { name := "notes.txt",
     meta := some { size := 7, modifiedIso := "2024-03-03T00:00:00+00:00",
                    content := [1] } },
   { name := ".hidden.pdf",
     meta := some { size := 9, modifiedIso := "2024-03-04T00:00:00+00:00",
                    content := [2] } }]

/-- A sample working directory with one populated category directory. -/
def fsSample : FS := ⟨[("vedtekter", vedtekterEntries)]⟩

/-- The spec's ordering scenario: exactly `a.pdf`, `b.pdf`, `c.pdf` placed
in category `vedtekter`, listed by the directory in scrambled order. -/
def fsABC : FS :=
  ⟨[("vedtekter",
      [{ name := "c.pdf",
         meta := some { size := 3, modifiedIso := "2024-01-03T00:00:00+00:00",
                        content := [3] } },
       { name := "a.pdf",
         meta := some { size := 1, modifiedIso := "2024-01-01T00:00:00+00:00",
                        content := [1] } },
       { name := "b.pdf",
         meta := some { size := 2, modifiedIso := "2024-01-02T00:00:00+00:00",
                        content := [2] } }])]⟩

/-- The document built for `a.pdf` in `fsABC`, used as the concrete
instance for the identifier claims. -/
def docA : Document :=
  mkDocument "vedtekter" "a.pdf"
    (get_file_info
      { name := "a.pdf",
        meta := some { size := 1, modifiedIso := "2024-01-01T00:00:00+00:00",
                       content := [1] } })

def gitOkEnv : GitEnv :=
  { add_returncode := 0, status_stdout := " M pdf-index.json\n",
    commit_returncode := 0, push_returncode := 0 }

def gitNoChangesEnv : GitEnv :=
  { add_returncode := 0, status_stdout := "",
    commit_returncode := 0, push_returncode := 0 }

def gitPushFailEnv : GitEnv :=
  { add_returncode := 0, status_stdout := " M pdf-index.json\n",
    commit_returncode := 0, push_returncode := 1 }

def envOk : Env :=
  { has_git_dir := true, fs := fsSample, gen_raises := false, git := gitOkEnv }

def envNoGit : Env :=
  { has_git_dir := false, fs := fsSample, gen_raises := false, git := gitOkEnv }

def envGenFail : Env :=
  { has_git_dir := true, fs := fsSample, gen_raises := true, git := gitOkEnv }

def envPushFail : Env :=
  { has_git_dir := true, fs := fsSample, gen_raises := false,
    git := gitPushFailEnv }

/-! ### Sanity checks of the MD5 embedding against known digests -/

theorem md5hex_empty : md5hex [] = "d41d8cd98f00b204e9800998ecf8427e" := by
  decide

theorem md5hex_abc :
    md5hex (utf8Encode "abc") = "900150983cd24fb0d6963f7d28e17f72" := by
  decide

/-! ### Characterization lemmas for `generate_pdf_index` -/

theorem foldl_processFile (category : String) (files : List FileEntry)
    (acc : CatAcc) :
    files.foldl (processFile category) acc =
      { documents := acc.documents
          ++ files.map fun e => mkDocument category e.name (get_file_info e),
        category_size :=
          acc.category_size + (files.map fun e => (get_file_info e).size).sum,
        total_documents := acc.total_documents + files.length,
        total_size :=
          acc.total_size + (files.map fun e => (get_file_info e).size).sum } := by
  induction files generalizing acc with
  | nil => simp
  | cons e es ih =>
      simp only [List.foldl_cons, ih, processFile, List.map_cons, List.sum_cons,
        List.length_cons, CatAcc.mk.injEq]
      refine ⟨by simp, by omega, by omega, by omega⟩

theorem scanCategory_eq (fs : FS) (td ts : Nat) (category : String) :
    scanCategory fs td ts category =
      (catDocs fs category, td + (catDocs fs category).length,
        ts + ((catDocs fs category).map Document.size).sum) := by
  unfold scanCategory catDocs
  cases h : fs.lookupDir category with
  | none => simp
  | some entries =>
      simp only [foldl_processFile, List.nil_append, List.length_map,
        List.map_map]
      rfl

theorem foldl_genStep (fs : FS) (cats : List String) (a : GenAcc) :
    cats.foldl (genStep fs) a =
      { documents := a.documents ++ cats.map fun c => (c, catDocs fs c),
        categoryCounts :=
          a.categoryCounts ++ cats.map fun c => (c, (catDocs fs c).length),
        total_documents :=
          a.total_documents + (cats.map fun c => (catDocs fs c).length).sum,
        total_size := a.total_size
          + (cats.map fun c => ((catDocs fs c).map Document.size).sum).sum } := by
  induction cats generalizing a with
  | nil => simp
  | cons c cs ih =>
      simp only [List.foldl_cons, ih, genStep, scanCategory_eq, List.map_cons,
        List.sum_cons, GenAcc.mk.injEq]
      refine ⟨by simp, by simp, by omega, by omega⟩

theorem generate_documents (fs : FS) (now : String) :
    (generate_pdf_index fs now).documents
      = CATEGORIES.map fun c => (c, catDocs fs c) := by
  simp [generate_pdf_index, foldl_genStep]

theorem generate_categoryCounts (fs : FS) (now : String) :
    (generate_pdf_index fs now).statistics.categoryCounts
      = CATEGORIES.map fun c => (c, (catDocs fs c).length) := by
  simp [generate_pdf_index, foldl_genStep]

theorem generate_totalDocuments (fs : FS) (now : String) :
    (generate_pdf_index fs now).statistics.totalDocuments
      = (CATEGORIES.map fun c => (catDocs fs c).length).sum := by
  simp [generate_pdf_index, foldl_genStep]

theorem generate_totalSize (fs : FS) (now : String) :
    (generate_pdf_index fs now).statistics.totalSize
      = (CATEGORIES.map fun c => ((catDocs fs c).map Document.size).sum).sum := by
  simp [generate_pdf_index, foldl_genStep]

theorem generate_lastUpdated (fs : FS) (now : String) :
    (generate_pdf_index fs now).lastUpdated = now := rfl

/-- Looking up a key of `l` in the association list pairing each key with
`f` of it returns `f` of the key. -/
theorem lookup_map_pair {α β : Type} [BEq α] [LawfulBEq α]
    (l : List α) (f : α → β) (c : α) (hc : c ∈ l) :
    (l.map fun x => (x, f x)).lookup c = some (f c) := by
  induction l with
  | nil => simp at hc
  | cons x xs ih =>
      rcases List.mem_cons.mp hc with rfl | hc
      · simp [List.lookup]
      · by_cases hx : c = x
        · subst hx; simp [List.lookup]
        · have hbeq : (c == x) = false := by simp [hx]
          simp [List.lookup, hbeq, ih hc]

/-! ### Properties of the insertion sort model of `sorted` -/

theorem mem_insertSorted {α : Type} (le : α → α → Bool) (x : α) (l : List α)
    (y : α) : y ∈ insertSorted le x l ↔ y = x ∨ y ∈ l := by
  induction l with
  | nil => simp [insertSorted]
  | cons z zs ih =>
      simp only [insertSorted]
      split
      · simp [List.mem_cons]
      · simp only [List.mem_cons, ih]
        tauto

theorem length_insertSorted {α : Type} (le : α → α → Bool) (x : α)
    (l : List α) : (insertSorted le x l).length = l.length + 1 := by
  induction l with
  | nil => simp [insertSorted]
  | cons z zs ih =>
      simp only [insertSorted]
      split
      · simp
      · simp [ih]

theorem pairwise_insertSorted {α : Type} (le : α → α → Bool)
    (htot : ∀ a b, le a b = true ∨ le b a = true)
    (htrans : ∀ a b c, le a b = true → le b c = true → le a c = true)
    (x : α) (l : List α) (hl : l.Pairwise fun a b => le a b = true) :
    (insertSorted le x l).Pairwise fun a b => le a b = true := by
  induction l with
  | nil => simp [insertSorted]
  | cons y ys ih =>
      rcases List.pairwise_cons.mp hl with ⟨hy, hys⟩
      simp only [insertSorted]
      split
      case isTrue hxy =>
        refine List.pairwise_cons.mpr ⟨?_, hl⟩
        intro z hz
        rcases List.mem_cons.mp hz with rfl | hz
        · exact hxy
        · exact htrans x y z hxy (hy z hz)
      case isFalse hxy =>
        refine List.pairwise_cons.mpr ⟨?_, ih hys⟩
        intro z hz
        rcases (mem_insertSorted le x ys z).mp hz with h | hz
        · rw [h]
          rcases htot x y with h' | h'
          · exact absurd h' hxy
          · exact h'
        · exact hy z hz

theorem mem_sortList {α : Type} (le : α → α → Bool) (l : List α) (y : α) :
    y ∈ sortList le l ↔ y ∈ l := by
  induction l with
  | nil => simp [sortList]
  | cons x xs ih =>
      show y ∈ insertSorted le x (sortList le xs) ↔ _
      rw [mem_insertSorted, ih]
      simp [List.mem_cons]

theorem length_sortList {α : Type} (le : α → α → Bool) (l : List α) :
    (sortList le l).length = l.length := by
  induction l with
  | nil => rfl
  | cons x xs ih =>
      show (insertSorted le x (sortList le xs)).length = _
      rw [length_insertSorted, ih, List.length_cons]

theorem pairwise_sortList {α : Type} (le : α → α → Bool)
    (htot : ∀ a b, le a b = true ∨ le b a = true)
    (htrans : ∀ a b c, le a b = true → le b c = true → le a c = true)
    (l : List α) : (sortList le l).Pairwise fun a b => le a b = true := by
  induction l with
  | nil => simp [sortList]
  | cons x xs ih =>
      exact pairwise_insertSorted le htot htrans x (sortList le xs) ih

theorem listCharLt_asymm :
    ∀ l1 l2, listCharLt l1 l2 = true → listCharLt l2 l1 = true → False := by
  intro l1
  induction l1 with
  | nil =>
      intro l2 h1 h2
      cases l2 <;> simp [listCharLt] at h1 h2
  | cons a as ih =>
      intro l2 h1 h2
      cases l2 with
      | nil => simp [listCharLt] at h1
      | cons b bs =>
          simp only [listCharLt, Bool.or_eq_true, Bool.and_eq_true,
            decide_eq_true_eq, beq_iff_eq] at h1 h2
          rcases h1 with hab | ⟨hab, h1⟩
          · rcases h2 with hba | ⟨hba, _⟩
            · exact absurd hba (lt_asymm hab)
            · rw [hba] at hab; exact lt_irrefl a hab
          · rcases h2 with hba | ⟨_, h2⟩
            · rw [hab] at hba; exact lt_irrefl b hba
            · exact ih bs h1 h2

theorem listCharLt_lt_trans :
    ∀ l1 l2 l3, listCharLt l1 l2 = true → listCharLt l2 l3 = true →
      listCharLt l1 l3 = true := by
  intro l1
  induction l1 with
  | nil =>
      intro l2 l3 h1 h2
      cases l2 with
      | nil => simp [listCharLt] at h1
      | cons b bs =>
          cases l3 with
          | nil => simp [listCharLt] at h2
          | cons c cs => simp [listCharLt]
  | cons a as ih =>
      intro l2 l3 h1 h2
      cases l2 with
      | nil => simp [listCharLt] at h1
      | cons b bs =>
          cases l3 with
          | nil => simp [listCharLt] at h2
          | cons c cs =>
              simp only [listCharLt, Bool.or_eq_true, Bool.and_eq_true,
                decide_eq_true_eq, beq_iff_eq] at h1 h2 ⊢
              rcases h1 with hab | ⟨hab, h1⟩
              · rcases h2 with hbc | ⟨hbc, _⟩
                · exact Or.inl (lt_trans hab hbc)
                · rw [hbc] at hab; exact Or.inl hab
              · rcases h2 with hbc | ⟨hbc, h2⟩
                · rw [hab]; exact Or.inl hbc
                · exact Or.inr ⟨hab.trans hbc, ih bs cs h1 h2⟩

theorem listCharLt_trichotomy :
    ∀ l1 l2, listCharLt l1 l2 = true ∨ l1 = l2 ∨ listCharLt l2 l1 = true := by
  intro l1
  induction l1 with
  | nil =>
      intro l2
      cases l2 with
      | nil => exact Or.inr (Or.inl rfl)
      | cons b bs => exact Or.inl (by simp [listCharLt])
  | cons a as ih =>
      intro l2
      cases l2 with
      | nil => exact Or.inr (Or.inr (by simp [listCharLt]))
      | cons b bs =>
          rcases lt_trichotomy a b with hab | hab | hab
          · exact Or.inl (by simp [listCharLt, hab])
          · subst hab
            rcases ih bs with h | h | h
            · exact Or.inl (by simp [listCharLt, h])
            · exact Or.inr (Or.inl (by rw [h]))
            · exact Or.inr (Or.inr (by simp [listCharLt, h]))
          · exact Or.inr (Or.inr (by simp [listCharLt, hab]))

theorem strLe_total (a b : String) : strLe a b = true ∨ strLe b a = true := by
  simp only [strLe, Bool.not_eq_true']
  rcases Bool.eq_false_or_eq_true (listCharLt b.data a.data) with h | h
  · refine Or.inr ?_
    cases hx : listCharLt a.data b.data with
    | false => rfl
    | true => exact (listCharLt_asymm _ _ hx h).elim
  · exact Or.inl h

theorem strLe_trans (a b c : String) :
    strLe a b = true → strLe b c = true → strLe a c = true := by
  simp only [strLe, Bool.not_eq_true']
  intro h1 h2
  cases hx : listCharLt c.data a.data with
  | false => rfl
  | true =>
      exfalso
      rcases listCharLt_trichotomy b.data c.data with h | h | h
      · have hba := listCharLt_lt_trans b.data c.data a.data h hx
        rw [h1] at hba
        exact Bool.false_ne_true hba
      · rw [← h] at hx
        rw [h1] at hx
        exact Bool.false_ne_true hx
      · rw [h2] at h
        exact Bool.false_ne_true h

theorem entryLe_total (a b : FileEntry) :
    entryLe a b = true ∨ entryLe b a = true := strLe_total a.name b.name

theorem entryLe_trans (a b c : FileEntry) :
    entryLe a b = true → entryLe b c = true → entryLe a c = true :=
  strLe_trans a.name b.name c.name

/-! ### Shape of the MD5 hex digest -/

theorem length_toLEBytes (k x : Nat) : (toLEBytes k x).length = k := by
  induction k generalizing x with
  | zero => rfl
  | succ k ih => simp [toLEBytes, ih]

theorem mem_toLEBytes_lt (k x : Nat) : ∀ b ∈ toLEBytes k x, b < 256 := by
  induction k generalizing x with
  | zero => intro b hb; simp [toLEBytes] at hb
  | succ k ih =>
      intro b hb
      simp only [toLEBytes, List.mem_cons] at hb
      rcases hb with rfl | hb
      · exact Nat.mod_lt _ (by omega)
      · exact ih _ b hb

theorem length_md5Digest (msg : List Nat) : (md5Digest msg).length = 16 := by
  simp [md5Digest, length_toLEBytes]

theorem mem_md5Digest_lt (msg : List Nat) : ∀ b ∈ md5Digest msg, b < 256 := by
  intro b hb
  simp only [md5Digest, List.mem_append] at hb
  rcases hb with ((hb | hb) | hb) | hb <;> exact mem_toLEBytes_lt _ _ b hb

theorem length_flatMap_hexBytePair (l : List Nat) :
    (l.flatMap hexBytePair).length = 2 * l.length := by
  induction l with
  | nil => rfl
  | cons b bs ih => simp [hexBytePair, ih]; omega

theorem length_md5hexChars (msg : List Nat) : (md5hexChars msg).length = 32 := by
  rw [md5hexChars, length_flatMap_hexBytePair, length_md5Digest]

theorem hexChar_mem : ∀ n, n < 16 → hexChar n ∈ "0123456789abcdef".data := by
  decide

theorem mem_md5hexChars (msg : List Nat) :
    ∀ ch ∈ md5hexChars msg, ch ∈ "0123456789abcdef".data := by
  intro ch hch
  simp only [md5hexChars, List.mem_flatMap] at hch
  obtain ⟨b, hb, hch⟩ := hch
  have hblt := mem_md5Digest_lt msg b hb
  simp only [hexBytePair, List.mem_cons, List.not_mem_nil, or_false] at hch
  rcases hch with rfl | rfl
  · exact hexChar_mem _ (by omega)
  · exact hexChar_mem _ (by omega)

/-! ### Sums over filtered lists and permutations -/

theorem sum_map_eq_sum_filter {α : Type} (l : List α) (p : α → Bool)
    (g : α → Nat) (h : ∀ x ∈ l, p x = false → g x = 0) :
    (l.map g).sum = ((l.filter p).map g).sum := by
  induction l with
  | nil => rfl
  | cons x xs ih =>
      have hxs : ∀ y ∈ xs, p y = false → g y = 0 :=
        fun y hy => h y (List.mem_cons_of_mem x hy)
      cases hp : p x with
      | true => simp [List.filter_cons, hp, ih hxs]
      | false =>
          simp [List.filter_cons, hp, ih hxs, h x (List.mem_cons_self x xs) hp]

theorem perm_insertSorted {α : Type} (le : α → α → Bool) (x : α)
    (l : List α) : (insertSorted le x l).Perm (x :: l) := by
  induction l with
  | nil => exact List.Perm.refl _
  | cons y ys ih =>
      simp only [insertSorted]
      split
      · exact List.Perm.refl _
      · exact (ih.cons y).trans (List.Perm.swap x y ys)

theorem perm_sortList {α : Type} (le : α → α → Bool) (l : List α) :
    (sortList le l).Perm l := by
  induction l with
  | nil => exact List.Perm.refl _
  | cons x xs ih =>
      exact (perm_insertSorted le x (sortList le xs)).trans (ih.cons x)

/-- Sanity check of `file_id` against `hashlib.md5` on a real input:
`md5('vedtekter_a.pdf') = 637d7ed45c4dc1d17f384a69dffedf29`. -/
theorem file_id_sample : file_id "vedtekter" "a.pdf" = "637d7ed45c4d" := by
  decide

/-- Sanity check with a multi-byte UTF-8 category name:
`md5('særavtale_bntf_x.pdf') = 9c515d498d1a1f3cf0ec5c0acd29f179`. -/
theorem file_id_sample_utf8 :
    file_id "særavtale_bntf" "x.pdf" = "9c515d498d1a" := by
  decide

/-! ### The claims -/

/-- C1: In every catalog produced by index generation, for every configured
category, `statistics.categoryCounts[category]` equals the length of
`documents[category]`; `statistics.totalDocuments` equals the sum of all
`categoryCounts` values (equivalently, of the per-category lengths); and
`statistics.totalSize` equals the sum of the `size` fields of all document
records across all categories. -/
theorem catalog_statistics_consistent (fs : FS) (now : String) (c : String)
    (hc : c ∈ CATEGORIES) :
    ((generate_pdf_index fs now).statistics.categoryCounts).lookup c
        = (((generate_pdf_index fs now).documents).lookup c).map List.length
    ∧ (generate_pdf_index fs now).statistics.totalDocuments
        = ((generate_pdf_index fs now).documents.map fun p => p.2.length).sum
    ∧ (generate_pdf_index fs now).statistics.totalSize
        = ((generate_pdf_index fs now).documents.map
            fun p => (p.2.map Document.size).sum).sum := by
  have h1 := lookup_map_pair CATEGORIES (fun c' => (catDocs fs c').length) c hc
  have h2 := lookup_map_pair CATEGORIES (fun c' => catDocs fs c') c hc
  refine ⟨?_, ?_, ?_⟩
  · rw [generate_categoryCounts, generate_documents]
    simp only [h1, h2]
    rfl
  · rw [generate_totalDocuments, generate_documents, List.map_map]
    rfl
  · rw [generate_totalSize, generate_documents, List.map_map]
    rfl

theorem catalog_statistics_consistent_witness :
    ((generate_pdf_index fsSample "t").statistics.categoryCounts).lookup
        "vedtekter"
      = (((generate_pdf_index fsSample "t").documents).lookup
          "vedtekter").map List.length
    ∧ (generate_pdf_index fsSample "t").statistics.totalDocuments
        = ((generate_pdf_index fsSample "t").documents.map
            fun p => p.2.length).sum
    ∧ (generate_pdf_index fsSample "t").statistics.totalSize
        = ((generate_pdf_index fsSample "t").documents.map
            fun p => (p.2.map Document.size).sum).sum :=
  catalog_statistics_consistent fsSample "t" "vedtekter" (by decide)

/-- C2: the run exits 0 on full success; it exits non-zero when the
precondition check fails (`.git` missing, checked first, before any
catalog or git work), when catalog generation raises, or when the publish
step fails. -/
theorem main_exit_codes (e : Env) (t1 t2 : String) :
    (e.has_git_dir = false →
        (main_run e t1 t2).exit_code = 1
        ∧ (main_run e t1 t2).index_data = none
        ∧ (main_run e t1 t2).git_steps = [])
    ∧ (e.has_git_dir = true → e.gen_raises = true →
        (main_run e t1 t2).exit_code = 1)
    ∧ (e.has_git_dir = true → e.gen_raises = false →
        (git_commit_and_push e.git).1 = .pushed →
        (main_run e t1 t2).exit_code = 0)
    ∧ (e.has_git_dir = true → e.gen_raises = false →
        (git_commit_and_push e.git).1 = .failed →
        (main_run e t1 t2).exit_code = 1) := by
  refine ⟨?_, ?_, ?_, ?_⟩
  · intro hg
    simp [main_run, hg]
  · intro hg hr
    simp [main_run, hg, hr]
  · intro hg hr hres
    simp [main_run, hg, hr, hres, publishOk]
  · intro hg hr hres
    simp [main_run, hg, hr, hres, publishOk]

theorem main_exit_codes_witness :
    (main_run envNoGit "t1" "t2").exit_code = 1
    ∧ (main_run envGenFail "t1" "t2").exit_code = 1
    ∧ (main_run envOk "t1" "t2").exit_code = 0
    ∧ (main_run envPushFail "t1" "t2").exit_code = 1 :=
  ⟨((main_exit_codes envNoGit "t1" "t2").1 rfl).1,
   (main_exit_codes envGenFail "t1" "t2").2.1 rfl rfl,
   (main_exit_codes envOk "t1" "t2").2.2.1 rfl rfl (by decide),
   (main_exit_codes envPushFail "t1" "t2").2.2.2 rfl rfl (by decide)⟩

/-- C3: the notification is constructed and dispatched only after the
publish step succeeds — never when it fails or reports no changes — and
the payload's `totalDocuments` equals the built catalog's
`statistics.totalDocuments` exactly. -/
theorem notification_gating (e : Env) (t1 t2 : String) :
    (∀ p, (main_run e t1 t2).notification = some p →
        (git_commit_and_push e.git).1 = .pushed
        ∧ p.client_payload.totalDocuments
            = (generate_pdf_index e.fs t1).statistics.totalDocuments)
    ∧ ((git_commit_and_push e.git).1 ≠ .pushed →
        (main_run e t1 t2).notification = none) := by
  constructor
  · intro p hp
    cases hg : e.has_git_dir with
    | false => simp [main_run, hg] at hp
    | true =>
        cases hr : e.gen_raises with
        | true => simp [main_run, hg, hr] at hp
        | false =>
            cases hres : (git_commit_and_push e.git).1 with
            | pushed =>
                refine ⟨rfl, ?_⟩
                simp only [main_run, hg, hr, hres, publishOk, Bool.not_true,
                  Bool.false_eq_true, if_false, if_true, ite_false, ite_true,
                  Option.some.injEq] at hp
                rw [← hp]
                rfl
            | noChanges => simp [main_run, hg, hr, hres, publishOk] at hp
            | failed => simp [main_run, hg, hr, hres, publishOk] at hp
  · intro hne
    cases hg : e.has_git_dir with
    | false => simp [main_run, hg]
    | true =>
        cases hr : e.gen_raises with
        | true => simp [main_run, hg, hr]
        | false =>
            cases hres : (git_commit_and_push e.git).1 with
            | pushed => exact absurd hres hne
            | noChanges => simp [main_run, hg, hr, hres, publishOk]
            | failed => simp [main_run, hg, hr, hres, publishOk]

theorem notification_gating_witness :
    ((git_commit_and_push envOk.git).1 = .pushed
      ∧ (notify_ios_app (generate_pdf_index fsSample "t1")
          "t2").client_payload.totalDocuments
        = (generate_pdf_index envOk.fs "t1").statistics.totalDocuments)
    ∧ (main_run envPushFail "t1" "t2").notification = none :=
  ⟨(notification_gating envOk "t1" "t2").1
      (notify_ios_app (generate_pdf_index fsSample "t1") "t2") rfl,
   (notification_gating envPushFail "t1" "t2").2 (by decide)⟩

/-- C5: a configured category whose directory does not exist (or is not a
directory) is recorded with an empty document list and a zero count, and
contributes nothing to `totalDocuments` or `totalSize`; no error is
raised. -/
theorem missing_category_dir (fs : FS) (now : String) (c : String)
    (hc : c ∈ CATEGORIES) (hmiss : fs.lookupDir c = none) :
    ((generate_pdf_index fs now).documents).lookup c = some []
    ∧ ((generate_pdf_index fs now).statistics.categoryCounts).lookup c = some 0
    ∧ (generate_pdf_index fs now).statistics.totalDocuments
        = (((generate_pdf_index fs now).documents.filter
            fun p => p.1 != c).map fun p => p.2.length).sum
    ∧ (generate_pdf_index fs now).statistics.totalSize
        = (((generate_pdf_index fs now).documents.filter
            fun p => p.1 != c).map fun p => (p.2.map Document.size).sum).sum := by
  have hempty : catDocs fs c = [] := by
    unfold catDocs
    rw [hmiss]
  have h1 := lookup_map_pair CATEGORIES (fun c' => catDocs fs c') c hc
  have h2 := lookup_map_pair CATEGORIES (fun c' => (catDocs fs c').length) c hc
  refine ⟨?_, ?_, ?_, ?_⟩
  · rw [generate_documents]
    simp only [h1, hempty]
  · rw [generate_categoryCounts]
    simp only [h2, hempty]
    rfl
  · rw [generate_totalDocuments, generate_documents, List.filter_map,
       List.map_map]
    exact sum_map_eq_sum_filter CATEGORIES (fun x => x != c) _
      (fun x _ hx => by
        have hxc : x = c := by simpa using hx
        simp [hxc, hempty])
  · rw [generate_totalSize, generate_documents, List.filter_map, List.map_map]
    exact sum_map_eq_sum_filter CATEGORIES (fun x => x != c) _
      (fun x _ hx => by
        have hxc : x = c := by simpa using hx
        simp [hxc, hempty])

theorem missing_category_dir_witness :
    ((generate_pdf_index fsSample "t").documents).lookup "other" = some []
    ∧ ((generate_pdf_index fsSample "t").statistics.categoryCounts).lookup
        "other" = some 0
    ∧ (generate_pdf_index fsSample "t").statistics.totalDocuments
        = (((generate_pdf_index fsSample "t").documents.filter
            fun p => p.1 != "other").map fun p => p.2.length).sum
    ∧ (generate_pdf_index fsSample "t").statistics.totalSize
        = (((generate_pdf_index fsSample "t").documents.filter
            fun p => p.1 != "other").map
              fun p => (p.2.map Document.size).sum).sum :=
  missing_category_dir fsSample "t" "other" (by decide) (by decide)

/-- C8: in the publish step, after staging, if the status query reports
nothing staged (stripped stdout empty) then the publish reports "no
changes" and stops: no commit is created and no push is attempted. -/
theorem publish_no_changes_short_circuit (g : GitEnv)
    (hadd : g.add_returncode = 0) (hstat : pyStrip g.status_stdout = "") :
    (git_commit_and_push g).1 = .noChanges
    ∧ GitStep.commit ∉ (git_commit_and_push g).2
    ∧ GitStep.push ∉ (git_commit_and_push g).2 := by
  simp [git_commit_and_push, hadd, hstat]

theorem publish_no_changes_short_circuit_witness :
    (git_commit_and_push gitNoChangesEnv).1 = .noChanges
    ∧ GitStep.commit ∉ (git_commit_and_push gitNoChangesEnv).2
    ∧ GitStep.push ∉ (git_commit_and_push gitNoChangesEnv).2 :=
  publish_no_changes_short_circuit gitNoChangesEnv rfl (by decide)

/-- C9: the notification payload's `updatedCategories` field always equals
the entire fixed configured category list — all six categories in
configuration order — regardless of the catalog contents. -/
theorem notification_updatedCategories_full_list (idx : Catalog)
    (now : String) :
    (notify_ios_app idx now).client_payload.updatedCategories = CATEGORIES
    ∧ CATEGORIES = ["protokoller", "vedtekter", "særavtale_bntf",
        "hovedavtalen", "overenskomsten", "other"] :=
  ⟨rfl, rfl⟩

/-- C4: if reading a file's metadata raises, the exception is caught
per-file: `get_file_info` returns zero size, empty timestamp and empty
hash, the file is still recorded in the catalog with those values, and the
scan continues — the category still records every glob-matching file. -/
theorem scan_error_recovery :
    (∀ e : FileEntry, e.meta = none →
        get_file_info e = { size := 0, modified := "", hash := "" })
    ∧ (∀ (fs : FS) (now c : String) (entries : List FileEntry)
        (e : FileEntry), c ∈ CATEGORIES → fs.lookupDir c = some entries →
        e ∈ entries → matchesPdfGlob e.name = true → e.meta = none →
        ∃ docs, ((generate_pdf_index fs now).documents).lookup c = some docs
          ∧ docs.length
              = (entries.filter fun x => matchesPdfGlob x.name).length
          ∧ ∃ d ∈ docs, d.filename = e.name ∧ d.size = 0 ∧ d.modified = ""
              ∧ d.hash = "") := by
  constructor
  · intro e he
    simp [get_file_info, he]
  · intro fs now c entries e hc hdir he hglob hmeta
    refine ⟨catDocs fs c, ?_, ?_, ?_⟩
    · rw [generate_documents]
      exact lookup_map_pair CATEGORIES (fun c' => catDocs fs c') c hc
    · simp only [catDocs, hdir, List.length_map, length_sortList]
    · have hin : e ∈ sortList entryLe
          (entries.filter fun x => matchesPdfGlob x.name) := by
        rw [mem_sortList]
        exact List.mem_filter.mpr ⟨he, hglob⟩
      refine ⟨mkDocument c e.name (get_file_info e), ?_, rfl, ?_, ?_, ?_⟩
      · simp only [catDocs, hdir]
        exact List.mem_map_of_mem _ hin
      · simp [mkDocument, get_file_info, hmeta]
      · simp [mkDocument, get_file_info, hmeta]
      · simp [mkDocument, get_file_info, hmeta]

theorem scan_error_recovery_witness :
    get_file_info { name := "b.pdf", meta := none }
        = { size := 0, modified := "", hash := "" }
    ∧ ∃ docs,
        ((generate_pdf_index fsSample "t").documents).lookup "vedtekter"
            = some docs
        ∧ docs.length
            = (vedtekterEntries.filter fun x => matchesPdfGlob x.name).length
        ∧ ∃ d ∈ docs, d.filename = "b.pdf" ∧ d.size = 0 ∧ d.modified = ""
            ∧ d.hash = "" :=
  ⟨scan_error_recovery.1 { name := "b.pdf", meta := none } rfl,
   scan_error_recovery.2 fsSample "t" "vedtekter" vedtekterEntries
     { name := "b.pdf", meta := none } (by decide) (by decide) (by decide)
     (by decide) rfl⟩

/-- C6: every document identifier in the catalog is the 12-hex-character
deterministic digest `md5("{category}_{filename}")[:12]`; consequently two
builds over an unchanged filesystem produce identical documents and
statistics, differing only in `lastUpdated`. -/
theorem document_id_deterministic :
    (∀ (fs : FS) (now c : String) (docs : List Document) (d : Document),
        (c, docs) ∈ (generate_pdf_index fs now).documents → d ∈ docs →
        d.id = file_id c d.filename)
    ∧ (∀ category filename : String,
        (file_id category filename).length = 12
        ∧ ∀ ch ∈ (file_id category filename).data,
            ch ∈ "0123456789abcdef".data)
    ∧ (∀ (fs : FS) (t1 t2 : String),
        (generate_pdf_index fs t1).documents
            = (generate_pdf_index fs t2).documents
        ∧ (generate_pdf_index fs t1).statistics
            = (generate_pdf_index fs t2).statistics
        ∧ (generate_pdf_index fs t1).lastUpdated = t1) := by
  refine ⟨?_, ?_, fun fs t1 t2 => ⟨rfl, rfl, rfl⟩⟩
  · intro fs now c docs d hmem hd
    rw [generate_documents] at hmem
    obtain ⟨c', _hc', heq⟩ := List.mem_map.mp hmem
    injection heq with h1 h2
    rw [← h2] at hd
    rw [← h1]
    cases hdir : fs.lookupDir c' with
    | none => simp [catDocs, hdir] at hd
    | some entries =>
        simp only [catDocs, hdir] at hd
        obtain ⟨x, _hx, rfl⟩ := List.mem_map.mp hd
        rfl
  · intro category filename
    constructor
    · show ((md5hexChars
        (utf8Encode (category ++ "_" ++ filename))).take 12).length = 12
      rw [List.length_take, length_md5hexChars]
      decide
    · intro ch hch
      exact mem_md5hexChars _ ch (List.take_subset 12 _ hch)

theorem document_id_deterministic_witness :
    docA.id = file_id "vedtekter" docA.filename
    ∧ '6' ∈ "0123456789abcdef".data
    ∧ (generate_pdf_index fsABC "t1").statistics
        = (generate_pdf_index fsABC "t2").statistics :=
  ⟨document_id_deterministic.1 fsABC "t" "vedtekter"
      (catDocs fsABC "vedtekter") docA (by decide) (by decide),
   (document_id_deterministic.2.1 "vedtekter" "a.pdf").2 '6' (by decide),
   (document_id_deterministic.2.2 fsABC "t1" "t2").2.1⟩

/-- C7: within every category, the catalog's document records appear
sorted lexicographically by filename; in particular three files `a.pdf`,
`b.pdf`, `c.pdf` placed in category `vedtekter` appear in
`documents.vedtekter` with derived names in the order `["a", "b", "c"]`. -/
theorem documents_sorted_by_filename :
    (∀ (fs : FS) (now c : String) (docs : List Document),
        (c, docs) ∈ (generate_pdf_index fs now).documents →
        (docs.map Document.filename).Pairwise fun a b => strLe a b = true)
    ∧ (∀ now : String,
        (((generate_pdf_index fsABC now).documents).lookup "vedtekter").map
          (fun docs => docs.map Document.name) = some ["a", "b", "c"]) := by
  constructor
  · intro fs now c docs hmem
    rw [generate_documents] at hmem
    obtain ⟨c', _hc', heq⟩ := List.mem_map.mp hmem
    injection heq with _h1 h2
    rw [← h2]
    cases hdir : fs.lookupDir c' with
    | none => simp [catDocs, hdir]
    | some entries =>
        simp only [catDocs, hdir, List.map_map]
        rw [List.pairwise_map]
        exact pairwise_sortList entryLe entryLe_total entryLe_trans _
  · intro now
    have h : (generate_pdf_index fsABC now).documents
        = (generate_pdf_index fsABC "t").documents := rfl
    rw [h]
    decide

theorem documents_sorted_by_filename_witness :
    ((catDocs fsABC "vedtekter").map Document.filename).Pairwise
        (fun a b => strLe a b = true)
    ∧ (((generate_pdf_index fsABC "tw").documents).lookup "vedtekter").map
        (fun docs => docs.map Document.name) = some ["a", "b", "c"] :=
  ⟨documents_sorted_by_filename.1 fsABC "tw" "vedtekter"
      (catDocs fsABC "vedtekter") (by decide),
   documents_sorted_by_filename.2 "tw"⟩

/-- C10: a file whose metadata read fails is still counted as one
document: the category count (and hence the totals sum) includes it — the
glob-matched entry count drops by exactly one if the file is removed — it
contributes 0 to the size sums, and its `id`, `name`, `filename` and `url`
are still derived normally from category and filename. -/
theorem failed_metadata_file_still_counted (fs : FS) (now c : String)
    (entries : List FileEntry) (e : FileEntry) (hc : c ∈ CATEGORIES)
    (hdir : fs.lookupDir c = some entries) (he : e ∈ entries)
    (hglob : matchesPdfGlob e.name = true) (hmeta : e.meta = none) :
    ∃ docs, ((generate_pdf_index fs now).documents).lookup c = some docs
      ∧ ((generate_pdf_index fs now).statistics.categoryCounts).lookup c
          = some docs.length
      ∧ docs.length = (entries.filter fun x => matchesPdfGlob x.name).length
      ∧ (entries.filter fun x => matchesPdfGlob x.name).length
          = ((entries.erase e).filter fun x => matchesPdfGlob x.name).length
            + 1
      ∧ (docs.map Document.size).sum
          = (((entries.erase e).filter fun x => matchesPdfGlob x.name).map
              fun x => (get_file_info x).size).sum
      ∧ (generate_pdf_index fs now).statistics.totalDocuments
          = (((generate_pdf_index fs now).statistics.categoryCounts).map
              fun p => p.2).sum
      ∧ ∃ d ∈ docs, d.id = file_id c e.name ∧ d.name = pathStem e.name
          ∧ d.filename = e.name
          ∧ d.url = BASE_URL ++ "/" ++ c ++ "/" ++ urlQuote e.name
          ∧ d.size = 0 := by
  have hperm : (entries.filter fun x => matchesPdfGlob x.name).Perm
      (e :: ((entries.erase e).filter fun x => matchesPdfGlob x.name)) := by
    have h1 : entries.Perm (e :: entries.erase e) := List.perm_cons_erase he
    have h2 := h1.filter (fun x => matchesPdfGlob x.name)
    simpa [List.filter_cons, hglob] using h2
  refine ⟨catDocs fs c, ?_, ?_, ?_, ?_, ?_, ?_, ?_⟩
  · rw [generate_documents]
    exact lookup_map_pair CATEGORIES (fun c' => catDocs fs c') c hc
  · rw [generate_categoryCounts]
    exact lookup_map_pair CATEGORIES (fun c' => (catDocs fs c').length) c hc
  · simp only [catDocs, hdir, List.length_map, length_sortList]
  · simp [hperm.length_eq]
  · have hsz : (catDocs fs c).map Document.size
        = (sortList entryLe (entries.filter fun x => matchesPdfGlob x.name)).map
            fun x => (get_file_info x).size := by
      simp only [catDocs, hdir, List.map_map]
      rfl
    rw [hsz]
    rw [((perm_sortList entryLe _).map fun x => (get_file_info x).size).sum_eq]
    rw [(hperm.map fun x => (get_file_info x).size).sum_eq]
    simp [get_file_info, hmeta]
  · rw [generate_totalDocuments, generate_categoryCounts, List.map_map]
    rfl
  · have hin : e ∈ sortList entryLe
        (entries.filter fun x => matchesPdfGlob x.name) := by
      rw [mem_sortList]
      exact List.mem_filter.mpr ⟨he, hglob⟩
    refine ⟨mkDocument c e.name (get_file_info e), ?_, rfl, rfl, rfl, rfl, ?_⟩
    · simp only [catDocs, hdir]
      exact List.mem_map_of_mem _ hin
    · simp [mkDocument, get_file_info, hmeta]

theorem failed_metadata_file_still_counted_witness :
    ∃ docs,
      ((generate_pdf_index fsSample "t").documents).lookup "vedtekter"
          = some docs
      ∧ ((generate_pdf_index fsSample "t").statistics.categoryCounts).lookup
          "vedtekter" = some docs.length
      ∧ docs.length
          = (vedtekterEntries.filter fun x => matchesPdfGlob x.name).length
      ∧ (vedtekterEntries.filter fun x => matchesPdfGlob x.name).length
          = ((vedtekterEntries.erase { name := "b.pdf", meta := none }).filter
              fun x => matchesPdfGlob x.name).length + 1
      ∧ (docs.map Document.size).sum
          = (((vedtekterEntries.erase { name := "b.pdf", meta := none }).filter
              fun x => matchesPdfGlob x.name).map
                fun x => (get_file_info x).size).sum
      ∧ (generate_pdf_index fsSample "t").statistics.totalDocuments
          = (((generate_pdf_index fsSample "t").statistics.categoryCounts).map
              fun p => p.2).sum
      ∧ ∃ d ∈ docs, d.id = file_id "vedtekter" "b.pdf"
          ∧ d.name = pathStem "b.pdf" ∧ d.filename = "b.pdf"
          ∧ d.url = BASE_URL ++ "/" ++ "vedtekter" ++ "/" ++ urlQuote "b.pdf"
          ∧ d.size = 0 :=
  failed_metadata_file_still_counted fsSample "t" "vedtekter"
    vedtekterEntries { name := "b.pdf", meta := none } (by decide) (by decide)
    (by decide) (by decide) rfl
